import Mathlib

/-!
Shallow embedding of the python-yr repository, covering
`src/yr/location_to_coordinates.py` and the `Cache`/`Connect` classes of
`src/yr/utils.py`.

Modelling conventions:
* Python machine floats are modelled as exact rationals: every numeral that
  reaches `float()` here is a finite decimal string, and the claims only
  compare values produced from equal strings.
* Filesystem, wall clock and network effects are passed in explicitly as
  arguments, and the observable actions (HTTP issued, cache file written or
  deleted) are returned explicitly.
* Fallible code returns `Except`, with one error constructor per raise site.
-/

namespace PyYr

/-- The coordinate dictionary `{'lat': .., 'lon': .., 'altitude': ..}` built by
`parse_location_csv` (lines 95-98 of location_to_coordinates.py). -/
structure Coord where
  lat : ℚ
  lon : ℚ
  altitude : ℚ
deriving DecidableEq

/-- Exceptions raised in location_to_coordinates.py.  The source uses the single
class `APIError` with distinct messages; each constructor corresponds to one
raise site and carries the data interpolated into its message.  `valueError`
models the unhandled Python `ValueError` raised by `float()` on a string such
as `"1.2.3"` (lines 96-98), which is not an `APIError` in the source but does
propagate to the caller. -/
inductive APIError
  | httpError (url : String) (status : Nat)
  | csvNotFound (search_for zip_filename : String)
  | locationNotFound (location_name zip_filename : String)
  | multipleMatches (location_name zip_filename : String)
  | malformedCoordinate (lat_lon_str : String)
  | valueError (s : String)
deriving DecidableEq

instance {ε α : Type} [DecidableEq ε] [DecidableEq α] : DecidableEq (Except ε α) := fun x y =>
  match x, y with
  | .ok a, .ok b => if h : a = b then .isTrue (by rw [h]) else .isFalse (by simp [h])
  | .error a, .error b => if h : a = b then .isTrue (by rw [h]) else .isFalse (by simp [h])
  | .ok _, .error _ => .isFalse (by simp)
  | .error _, .ok _ => .isFalse (by simp)

/-! ## Lookup archive cache: `file_age` and `get_zip_cached` (lines 28-71) -/

/-- `file_age` (lines 28-36): age of the file in days,
`(now - fileChanged)/(60*60*24)`.  The source reads `fileChanged` via
`os.path.getmtime` and `now` via `time.time`; both instants are passed in. -/
def file_age (now fileChanged : ℚ) : ℚ :=
  (now - fileChanged) / (60 * 60 * 24)

/-- What happened to the file at `cache_filename` during a `get_zip_cached`
call: left untouched, (over)written with the response body, removed after a
failed write, or left behind partially written when the removal itself failed
(the bare `except: pass` at lines 68-69). -/
inductive CacheOutcome
  | untouched
  | written
  | deleted
  | leftover
deriving DecidableEq

/-- Observable outcome of one `get_zip_cached` call: whether an HTTP request
was issued, the returned value or raised exception, and the action taken on
the cache file. -/
structure ZipFetch where
  httpRequested : Bool
  result : Except APIError String
  cacheAction : CacheOutcome
deriving DecidableEq

/-- `get_zip_cached` (lines 38-71) as a function of the explicit environment:
`cacheExists` is `os.path.exists(cache_filename)`, `mtime`/`now` feed
`file_age`, `status` is the HTTP response status, `writeOk` is whether writing
the response body succeeds and `removeOk` whether the subsequent
`os.remove` succeeds.  Note the write-failure branch (lines 64-69) logs,
attempts the removal, and then falls through to `return cache_filename`:
the write error is swallowed, not re-raised. -/
def get_zip_cached (url cache_filename : String) (cacheExists : Bool)
    (mtime now old_age_days : ℚ) (status : Nat) (writeOk removeOk : Bool) :
    ZipFetch :=
  if cacheExists = true ∧ file_age now mtime < old_age_days then
    ⟨false, .ok cache_filename, .untouched⟩
  else if status ≠ 200 then
    ⟨true, .error (.httpError url status), .untouched⟩
  else if writeOk then
    ⟨true, .ok cache_filename, .written⟩
  else if removeOk then
    ⟨true, .ok cache_filename, .deleted⟩
  else
    ⟨true, .ok cache_filename, .leftover⟩

/-! ## The coordinate pattern (lines 91-100) -/

/-- The character class `[\d.]` of the coordinate pattern (line 91).  `\d` is
modelled as the ASCII digits, which covers every string the archive and the
claims use.  The class carries no sign, so `'-'` is rejected. -/
def isDigitDot (c : Char) : Bool :=
  c.isDigit || c = '.'

/-- Match a literal run of characters at the head of the input, returning the
remainder on success. -/
def matchLit : List Char → List Char → Option (List Char)
  | [], rest => some rest
  | _ :: _, [] => none
  | l :: ls, c :: cs => if c = l then matchLit ls cs else none

/-- `re.match` of `'lat=([\d.]+)&lon=([\d.]+)&altitude=([\d.]+)'` (lines
91-92), returning the three captured groups.  Each greedy `([\d.]+)` is
followed by a literal `'&'` (or, for the last group, by nothing), and `'&'` is
not in the class, so backtracking can never shorten a group: the regex match
is equivalent to this deterministic maximal-run matcher.  `re.match` anchors
at the start only and ignores trailing input. -/
def coordGroups (cs : List Char) : Option (List Char × List Char × List Char) :=
  match matchLit ['l', 'a', 't', '='] cs with
  | none => none
  | some r1 =>
    let g1 := r1.takeWhile isDigitDot
    if g1.isEmpty then none else
    match matchLit ['&', 'l', 'o', 'n', '='] (r1.dropWhile isDigitDot) with
    | none => none
    | some r2 =>
      let g2 := r2.takeWhile isDigitDot
      if g2.isEmpty then none else
      match matchLit ['&', 'a', 'l', 't', 'i', 't', 'u', 'd', 'e', '='] (r2.dropWhile isDigitDot) with
      | none => none
      | some r3 =>
        let g3 := r3.takeWhile isDigitDot
        if g3.isEmpty then none else some (g1, g2, g3)

/-- String-level wrapper around `coordGroups`. -/
def coordMatch (s : String) : Option (String × String × String) :=
  (coordGroups s.data).map fun g => (⟨g.1⟩, ⟨g.2.1⟩, ⟨g.2.2⟩)

/-- Value of a list of decimal digit characters. -/
def digitsToNat (l : List Char) : Nat :=
  l.foldl (fun a c => 10 * a + (c.toNat - 48)) 0

/-- Python `float()` restricted to its reachable inputs here: nonempty runs of
digits and dots (the captured groups of the pattern).  On such a string
`float` succeeds exactly when there is at most one dot and at least one digit
(`"5."`, `".5"`, `"123"` parse; `"1.2.3"` and `"."` raise `ValueError`), and
the value is the exact decimal rational. -/
def pyFloat (s : String) : Option ℚ :=
  let cs := s.data
  if cs.count '.' ≤ 1 && cs.any Char.isDigit then
    let ip := cs.takeWhile (fun c => c ≠ '.')
    let fp := (cs.dropWhile (fun c => c ≠ '.')).drop 1
    some ((digitsToNat ip : ℚ) + (digitsToNat fp : ℚ) / (10 : ℚ) ^ fp.length)
  else none

/-! ## `parse_location_csv` (lines 73-102) -/

/-- `parse_location_csv` (lines 73-102).  A row of the tab-separated country
table is its two columns `(place_name, coordinate_descriptor)`.  The for-loop
with `break` keeps the first row whose column 0 equals `location_name`
(modelled by `List.find?`); the for-else returns `None` when no row matches.
A matching row whose column 1 fails the pattern raises `APIError`; the three
captured groups are then converted with `float()` in order (group 1 first). -/
def parse_location_csv (rows : List (String × String)) (location_name : String) :
    Except APIError (Option Coord) :=
  match rows.find? (fun row => row.1 == location_name) with
  | none => .ok none
  | some row =>
    match coordMatch row.2 with
    | none => .error (.malformedCoordinate row.2)
    | some (g1, g2, g3) =>
      match pyFloat g1 with
      | none => .error (.valueError g1)
      | some la =>
        match pyFloat g2 with
        | none => .error (.valueError g2)
        | some lo =>
          match pyFloat g3 with
          | none => .error (.valueError g3)
          | some al => .ok (some ⟨la, lo, al⟩)

/-- Whether some row of a table matches the location name in column 0. -/
def hasMatch (rows : List (String × String)) (name : String) : Bool :=
  rows.any (fun row => row.1 == name)

/-! ## `parse_zip_cached` (lines 104-181) -/

/-- Lines 149-150: `location_name.lower()` followed by
`.replace(" ", "_")`.  Both operations are character-wise (the replaced
pattern is a single character); `str.lower` is modelled by `Char.toLower`,
adequate for the ASCII location paths involved. -/
def normalize (s : String) : String :=
  ⟨(s.data.map Char.toLower).map (fun c => if c = ' ' then '_' else c)⟩

/-- Line 151: `location_name.split('/')[0]`.  Python `split` on `'/'` always
yields at least one element, and its element 0 is the prefix of the string up
to the first `'/'` (the whole string when there is none). -/
def country (nloc : String) : String :=
  ⟨nloc.data.takeWhile (fun c => c ≠ '/')⟩

/-- A member of the downloaded zip archive: its name inside the archive and
its parsed csv rows. -/
structure ZipEntry where
  name : String
  rows : List (String × String)
deriving DecidableEq

/-- Lines 156-160: the members of `z.namelist()` whose name ends with
`'<country>.csv'`.  Python `str.endswith` is suffix-of on the character
sequence, modelled on the underlying character lists. -/
def candidateFiles (zip : List ZipEntry) (nloc : String) : List ZipEntry :=
  zip.filter (fun e => (country nloc ++ ".csv").data.isSuffixOf e.name.data)

/-- Lines 166-171: scan each candidate file in order with
`parse_location_csv`, appending the per-file result when one is found; an
exception raised in any file aborts the whole loop. -/
def collectResults (entries : List ZipEntry) (location_name : String) :
    Except APIError (List Coord) :=
  match entries with
  | [] => .ok []
  | e :: rest =>
    match parse_location_csv e.rows location_name with
    | .error err => .error err
    | .ok none => collectResults rest location_name
    | .ok (some c) =>
      match collectResults rest location_name with
      | .error err => .error err
      | .ok rs => .ok (c :: rs)

/-- Lines 151-181 after normalization: select the candidate files, raise if
there are none, scan them, and dispatch on the number of collected results
(`if len == 0` / `elif len > 1` / `else results[0]`, lines 173-178, written
as the equivalent three-way match). -/
def parse_zip_core (zip : List ZipEntry) (zip_filename : String) (nloc : String) :
    Except APIError Coord :=
  let search_for := country nloc ++ ".csv"
  let cands := candidateFiles zip nloc
  if cands.length = 0 then .error (.csvNotFound search_for zip_filename)
  else
    match collectResults cands nloc with
    | .error e => .error e
    | .ok [] => .error (.locationNotFound nloc zip_filename)
    | .ok [c] => .ok c
    | .ok (_ :: _ :: _) => .error (.multipleMatches nloc zip_filename)

/-- The body of `parse_zip_cached` (lines 147-181) given the archive contents
found at `cache_filename` (a fresh download and a cache hit of
`get_zip_cached` both leave the archive there). -/
def parse_zip_scan (zip : List ZipEntry) (zip_filename location_name : String) :
    Except APIError Coord :=
  parse_zip_core zip zip_filename (normalize location_name)

/-- The shelve store (lines 104-130): a persistent mapping keyed by
`repr(args) + repr(kwargs)`.  For a fixed call shape this key is an injective
encoding of the `(url, cache_filename, location_name)` triple, modelled as
the triple itself. -/
abbrev ShelveStore := List ((String × String × String) × Coord)

/-- Shelve lookup (`cache_key in f` then `f[cache_key]`, lines 117-119). -/
def shelveGet (s : ShelveStore) (k : String × String × String) : Option Coord :=
  (s.find? (fun kv => kv.1 == k)).map (·.2)

/-- Shelve assignment (`f[cache_key] = ret`, line 126); prepending models
overwrite because `shelveGet` returns the first binding. -/
def shelveSet (s : ShelveStore) (k : String × String × String) (v : Coord) :
    ShelveStore :=
  (k, v) :: s

/-- Outcome of one memoized `parse_zip_cached` call: the returned value or
raised exception, the shelve store afterwards, and whether the wrapped
function ran (i.e. whether the archive was fetched and scanned). -/
structure CallResult where
  result : Except APIError Coord
  store : ShelveStore
  scanned : Bool
deriving DecidableEq

/-- One call of the memoized `parse_zip_cached` (the `shelve_cache` wrapper,
lines 111-128, around lines 132-181): consult the shelve first; on a miss run
the archive scan and persist a successful result (an exception propagates
before the store is written). -/
def parse_zip_cached (store : ShelveStore) (zip : List ZipEntry)
    (url cache_filename location_name : String) : CallResult :=
  let k := (url, cache_filename, location_name)
  match shelveGet store k with
  | some v => ⟨.ok v, store, false⟩
  | none =>
    match parse_zip_scan zip cache_filename location_name with
    | .error e => ⟨.error e, store, true⟩
    | .ok v => ⟨.ok v, shelveSet store k v, true⟩

/-! ## `Cache.is_fresh` and `Connect.read` (utils.py lines 148-235) -/

/-- Shape of `d['weatherdata']['meta']['model']` after `xmltodict.parse`
succeeds on the cached payload: a dict carrying `'@nextrun'`, a list whose
first element carries it, or anything else (e.g. a plain string or `None`).
The `'@nextrun'` timestamp string is abstracted to the instant it denotes, in
epoch seconds: the `strptime`/UTC-to-local conversion of lines 207-211
preserves the denoted instant. -/
inductive ModelField
  | asDict (nextrun : Int)
  | asList (nextrun : Int)
  | other
deriving DecidableEq

/-- A cached payload, abstracted to its parse outcome: `unparseable` when
`xmltodict.parse` raises `ExpatError`, otherwise the shape of the
`meta.model` field (the claims only exercise documents where
`weatherdata.meta.model` is present). -/
inductive Payload
  | unparseable
  | doc (model : ModelField)
deriving DecidableEq

/-- Return type of `Cache.valid_until_timestamp_from_file`: a datetime
(instant in epoch seconds; `datetime.fromtimestamp(0)` is the instant 0), or
the Python literal `False` returned by the unrecognized-shape branch at line
206. -/
inductive DatetimeOrFalse
  | dt (t : Int)
  | pyFalse
deriving DecidableEq

/-- `Cache.valid_until_timestamp_from_file` (lines 192-218).  Every location
class in the repository subclasses `API_Locationforecast`, so the
`isinstance` test at line 200 is true and the `@nextrun` branches apply. -/
def valid_until_timestamp_from_file : Payload → DatetimeOrFalse
  | .unparseable => .dt 0
  | .doc (.asDict t) => .dt t
  | .doc (.asList t) => .dt t
  | .doc .other => .pyFalse

/-- The Python `TypeError` raised when comparing a `datetime` with the bool
`False`. -/
inductive PyTypeError
  | typeError
deriving DecidableEq

/-- `Cache.is_fresh` (lines 220-222): `datetime.datetime.now() <=
self.valid_until_timestamp_from_file()`.  The comparison is inclusive; when
the callee returned the literal `False`, comparing a datetime with a bool
raises `TypeError`. -/
def is_fresh (now : Int) (p : Payload) : Except PyTypeError Bool :=
  match valid_until_timestamp_from_file p with
  | .dt t => .ok (decide (now ≤ t))
  | .pyFalse => .error .typeError

/-- Failures of `Connect.read`.  On a non-200 status the source executes a
bare `raise` (line 161); the resulting exception funnels through the
`except`/`YrException` wrapper (lines 167-168, whose own bare `raise`
re-raises it) and reaches the caller: this fatal provider error is the
`apiError` constructor.  `freshnessTypeError` is the `TypeError` escaping
`cache.is_fresh()`. -/
inductive ReadErr
  | apiError (status : Nat)
  | freshnessTypeError
deriving DecidableEq

/-- Observable outcome of one `Connect.read` call. -/
structure ReadResult where
  result : Except ReadErr String
  httpCalled : Bool
  wroteCache : Bool
deriving DecidableEq

/-- `Connect.read` (lines 148-168) as a function of the cache state, the
freshness outcome and the HTTP response.  `not cache.exists() or not
cache.is_fresh()` short-circuits, so `is_fresh` is only consulted when the
cache file exists; on the fetch path `cache.dump(weatherdata)` runs after a
200 response (`wroteCache`). -/
def connectRead (cacheExists : Bool) (freshRes : Except PyTypeError Bool)
    (status : Nat) (body cachedBody : String) : ReadResult :=
  if cacheExists then
    match freshRes with
    | .error _ => ⟨.error .freshnessTypeError, false, false⟩
    | .ok true => ⟨.ok cachedBody, false, false⟩
    | .ok false =>
      if status ≠ 200 then ⟨.error (.apiError status), true, false⟩
      else ⟨.ok body, true, true⟩
  else
    if status ≠ 200 then ⟨.error (.apiError status), true, false⟩
    else ⟨.ok body, true, true⟩

/-! ## Auxiliary predicates used by the theorems -/

/-- Whether a resolution outcome is one of the two not-found failures (no
candidate table file, line 164, or no matching row, line 174) — the spec's
`LocationNotFoundError`. -/
def isLocationNotFound : Except APIError Coord → Bool
  | .error (.csvNotFound _ _) => true
  | .error (.locationNotFound _ _) => true
  | _ => false

/-- Two characters differ at most by letter case or by space versus
underscore. -/
def charVariant (c d : Char) : Bool :=
  (c.toLower = d.toLower) || ((c = ' ' || c = '_') && (d = ' ' || d = '_'))

/-- Pointwise `charVariant` on two character lists of equal length. -/
def locVariantB : List Char → List Char → Bool
  | [], [] => true
  | c :: cs, d :: ds => charVariant c d && locVariantB cs ds
  | _, _ => false

/-- Two location paths differ only by letter case or by spaces versus
underscores. -/
def locVariant (p q : String) : Prop :=
  locVariantB p.data q.data = true

instance (p q : String) : Decidable (locVariant p q) :=
  inferInstanceAs (Decidable (locVariantB p.data q.data = true))

/-- The value `float()` produces on a string it accepts (0 on a rejected
string); used to state concrete instances. -/
def floatVal (s : String) : ℚ :=
  (pyFloat s).getD 0

/-! ## Theorems -/

theorem shelveGet_shelveSet (s : ShelveStore) (k : String × String × String) (v : Coord) :
    shelveGet (shelveSet s k v) k = some v := by
  simp [shelveGet, shelveSet, List.find?]

/-- C3: resolving the same `(url, cache_filename, location_name)` triple twice
returns an identical coordinate dictionary both times, and the second call
performs no archive scan: it returns the value persisted in the shelve store
under the key built from the exact call arguments. -/
theorem parse_zip_cached_memoized (store : ShelveStore) (zip : List ZipEntry)
    (url cf loc : String) (v : Coord)
    (h : (parse_zip_cached store zip url cf loc).result = .ok v) :
    (parse_zip_cached (parse_zip_cached store zip url cf loc).store zip url cf loc).result =
      .ok v ∧
    (parse_zip_cached (parse_zip_cached store zip url cf loc).store zip url cf loc).scanned =
      false ∧
    shelveGet (parse_zip_cached store zip url cf loc).store (url, cf, loc) = some v := by
  rcases hg : shelveGet store (url, cf, loc) with _ | w
  · rcases hs : parse_zip_scan zip cf loc with e | w
    · exfalso
      simp only [parse_zip_cached, hg, hs] at h
      exact absurd h (by simp)
    · have hres : parse_zip_cached store zip url cf loc =
          ⟨.ok w, shelveSet store (url, cf, loc) w, true⟩ := by
        simp only [parse_zip_cached, hg, hs]
      have hv : w = v := by
        rw [hres] at h
        simpa using h
      subst hv
      have hget := shelveGet_shelveSet store (url, cf, loc) w
      refine ⟨?_, ?_, by rw [hres]; exact hget⟩ <;>
        · rw [hres]
          simp only [parse_zip_cached, hget]
  · have hres : parse_zip_cached store zip url cf loc = ⟨.ok w, store, false⟩ := by
      simp only [parse_zip_cached, hg]
    have hv : w = v := by
      rw [hres] at h
      simpa using h
    subst hv
    refine ⟨?_, ?_, by rw [hres]; exact hg⟩ <;>
      · rw [hres]
        simp only [parse_zip_cached, hg]

theorem parse_zip_cached_memoized_witness :
    (parse_zip_cached
        (parse_zip_cached [] [⟨"w/x.csv", [("x/y", "lat=1&lon=2&altitude=3")]⟩]
          "u" "c" "x/y").store
        [⟨"w/x.csv", [("x/y", "lat=1&lon=2&altitude=3")]⟩] "u" "c" "x/y").result =
      .ok ⟨floatVal "1", floatVal "2", floatVal "3"⟩ ∧
    (parse_zip_cached
        (parse_zip_cached [] [⟨"w/x.csv", [("x/y", "lat=1&lon=2&altitude=3")]⟩]
          "u" "c" "x/y").store
        [⟨"w/x.csv", [("x/y", "lat=1&lon=2&altitude=3")]⟩] "u" "c" "x/y").scanned = false ∧
    shelveGet
        (parse_zip_cached [] [⟨"w/x.csv", [("x/y", "lat=1&lon=2&altitude=3")]⟩]
          "u" "c" "x/y").store ("u", "c", "x/y") =
      some ⟨floatVal "1", floatVal "2", floatVal "3"⟩ :=
  parse_zip_cached_memoized [] [⟨"w/x.csv", [("x/y", "lat=1&lon=2&altitude=3")]⟩]
    "u" "c" "x/y" ⟨floatVal "1", floatVal "2", floatVal "3"⟩ rfl

theorem charVariant_canon {c d : Char} (h : charVariant c d = true) :
    (if c.toLower = ' ' then '_' else c.toLower) =
      (if d.toLower = ' ' then '_' else d.toLower) := by
  simp only [charVariant, Bool.or_eq_true, Bool.and_eq_true, decide_eq_true_eq] at h
  rcases h with h | ⟨hc, hd⟩
  · rw [h]
  · rcases hc with hc | hc <;> rcases hd with hd | hd <;> subst hc <;> subst hd <;> decide

theorem locVariantB_map_eq : ∀ cs ds : List Char, locVariantB cs ds = true →
    (cs.map Char.toLower).map (fun c => if c = ' ' then '_' else c) =
      (ds.map Char.toLower).map (fun c => if c = ' ' then '_' else c)
  | [], [], _ => rfl
  | c :: cs, d :: ds, h => by
    simp only [locVariantB, Bool.and_eq_true] at h
    simp only [List.map_cons, List.map_map, Function.comp]
    have hh := charVariant_canon h.1
    have ht := locVariantB_map_eq cs ds h.2
    simp only [List.map_map, Function.comp] at ht
    rw [hh, ht]
  | [], _ :: _, h => by simp [locVariantB] at h
  | _ :: _, [], h => by simp [locVariantB] at h

/-- C7: two location paths that differ only by letter case or by spaces
versus underscores normalize to the same string, hence resolve identically
against any archive: the resolver lower-cases the path and replaces spaces
with underscores before searching. -/
theorem resolve_case_space_insensitive (p q : String) (h : locVariant p q) :
    normalize p = normalize q ∧
    ∀ (zip : List ZipEntry) (zf : String),
      parse_zip_scan zip zf p = parse_zip_scan zip zf q := by
  have hn : normalize p = normalize q :=
    congrArg String.mk (locVariantB_map_eq p.data q.data h)
  exact ⟨hn, fun zip zf => by unfold parse_zip_scan; rw [hn]⟩

theorem resolve_case_space_insensitive_witness :
    normalize "Norge/Telemark/Skien/Skien" = normalize "norge/telemark/skien/skien" ∧
    parse_zip_scan [⟨"w/norge.csv", [("norge/telemark/skien/skien", "lat=59.2&lon=9.6&altitude=10")]⟩]
        "z" "Norge/Telemark/Skien/Skien" =
      parse_zip_scan [⟨"w/norge.csv", [("norge/telemark/skien/skien", "lat=59.2&lon=9.6&altitude=10")]⟩]
        "z" "norge/telemark/skien/skien" :=
  ⟨(resolve_case_space_insensitive "Norge/Telemark/Skien/Skien"
      "norge/telemark/skien/skien" (by decide)).1,
   (resolve_case_space_insensitive "Norge/Telemark/Skien/Skien"
      "norge/telemark/skien/skien" (by decide)).2
     [⟨"w/norge.csv", [("norge/telemark/skien/skien", "lat=59.2&lon=9.6&altitude=10")]⟩] "z"⟩

/-- C9 counterexample: the row `("p", "lat=1.2.3&lon=1&altitude=1")` matches
the coordinate pattern — the captured groups are `("1.2.3", "1", "1")` — yet
resolution does not return the three captured fields as floats: `float()`
raises `ValueError` on the multi-dot group `"1.2.3"`. -/
theorem parse_location_csv_float_cx :
    coordMatch "lat=1.2.3&lon=1&altitude=1" = some ("1.2.3", "1", "1") ∧
    pyFloat "1.2.3" = none ∧
    parse_location_csv [("p", "lat=1.2.3&lon=1&altitude=1")] "p" =
      .error (.valueError "1.2.3") :=
  ⟨rfl, rfl, rfl⟩

/-- C9 (amended): if the first matching row's second column does not match
the fixed coordinate pattern, resolution fails with the malformed-coordinate
error; if it matches and each captured field is accepted by `float()` (at
most one dot), the three fields are returned as the floats lat, lon,
altitude — a captured field with more than one dot instead raises an
unhandled `ValueError`. -/
theorem parse_location_csv_pattern (rows : List (String × String)) (name : String)
    (row : String × String) (hfind : rows.find? (fun r => r.1 == name) = some row) :
    (coordMatch row.2 = none →
      parse_location_csv rows name = .error (.malformedCoordinate row.2)) ∧
    (∀ g1 g2 g3 a b c, coordMatch row.2 = some (g1, g2, g3) →
      pyFloat g1 = some a → pyFloat g2 = some b → pyFloat g3 = some c →
      parse_location_csv rows name = .ok (some ⟨a, b, c⟩)) := by
  constructor
  · intro hm
    simp only [parse_location_csv, hfind, hm]
  · intro g1 g2 g3 a b c hm h1 h2 h3
    simp only [parse_location_csv, hfind, hm, h1, h2, h3]

theorem parse_location_csv_pattern_witness :
    parse_location_csv [("p", "lat=1&lon=2&altitude=3")] "p" =
      .ok (some ⟨floatVal "1", floatVal "2", floatVal "3"⟩) ∧
    parse_location_csv [("q", "oops")] "q" = .error (.malformedCoordinate "oops") :=
  ⟨(parse_location_csv_pattern [("p", "lat=1&lon=2&altitude=3")] "p"
      ("p", "lat=1&lon=2&altitude=3") rfl).2
      "1" "2" "3" (floatVal "1") (floatVal "2") (floatVal "3") rfl rfl rfl rfl,
   (parse_location_csv_pattern [("q", "oops")] "q" ("q", "oops") rfl).1 rfl⟩

/-- C1: when a file already exists at `cache_filename` and its
modification-time age is strictly less than `old_age_days`, `get_zip_cached`
issues no HTTP request and returns `cache_filename` unchanged, leaving the
cache file untouched. -/
theorem get_zip_cached_cache_hit (url cf : String) (mtime now old_age_days : ℚ)
    (status : Nat) (writeOk removeOk : Bool)
    (hage : file_age now mtime < old_age_days) :
    get_zip_cached url cf true mtime now old_age_days status writeOk removeOk =
      ⟨false, .ok cf, .untouched⟩ := by
  simp [get_zip_cached, hage]

theorem get_zip_cached_cache_hit_witness :
    file_age 50 50 < 30 ∧
      get_zip_cached "u" "/tmp/a.zip" true 50 50 30 404 false false =
        ⟨false, .ok "/tmp/a.zip", .untouched⟩ :=
  ⟨by simp [file_age],
   get_zip_cached_cache_hit "u" "/tmp/a.zip" 50 50 30 404 false false (by simp [file_age])⟩

/-- C2 counterexample: with no existing cache file, a 200 response and a
failing write, `get_zip_cached` removes the partial cache file but then
returns `cache_filename` normally (the result is `ok`, not an error): the
write error is swallowed, not propagated to the caller. -/
theorem get_zip_cached_swallows_write_error :
    get_zip_cached "u" "/tmp/a.zip" false 0 0 30 200 false true =
      ⟨true, .ok "/tmp/a.zip", .deleted⟩ := by
  decide

/-- C2 (amended): when `get_zip_cached` downloads a new archive (no fresh
cache file) and writing the response body fails, it deletes the partial cache
file (leaving it behind only if the removal itself fails) and then returns
`cache_filename` normally; the write error is logged and swallowed, not
propagated. -/
theorem get_zip_cached_write_failure (url cf : String) (cacheExists : Bool)
    (mtime now old_age_days : ℚ) (removeOk : Bool)
    (hmiss : ¬(cacheExists = true ∧ file_age now mtime < old_age_days)) :
    get_zip_cached url cf cacheExists mtime now old_age_days 200 false removeOk =
      ⟨true, .ok cf, if removeOk then .deleted else .leftover⟩ := by
  cases removeOk <;> simp [get_zip_cached, hmiss]

theorem get_zip_cached_write_failure_witness :
    get_zip_cached "u" "f" false 0 0 30 200 false true = ⟨true, .ok "f", .deleted⟩ := by
  simpa using get_zip_cached_write_failure "u" "f" false 0 0 30 true (by simp)

/-- C4: `is_fresh` compares inclusively: a cached payload whose embedded
next-update timestamp equals exactly the current time is fresh (in both the
dict and the list payload shapes), while a payload whose next-update
timestamp is strictly before the current time is not fresh. -/
theorem is_fresh_inclusive_boundary (now t : Int) :
    is_fresh now (.doc (.asDict now)) = .ok true ∧
    is_fresh now (.doc (.asList now)) = .ok true ∧
    (t < now → is_fresh now (.doc (.asDict t)) = .ok false ∧
      is_fresh now (.doc (.asList t)) = .ok false) := by
  refine ⟨by simp [is_fresh, valid_until_timestamp_from_file],
    by simp [is_fresh, valid_until_timestamp_from_file], fun h => ⟨?_, ?_⟩⟩ <;>
    simp [is_fresh, valid_until_timestamp_from_file, not_le_of_gt h]

theorem is_fresh_inclusive_boundary_witness :
    is_fresh 5 (.doc (.asDict 5)) = .ok true ∧
    is_fresh 5 (.doc (.asDict 3)) = .ok false ∧ is_fresh 5 (.doc (.asList 3)) = .ok false :=
  ⟨(is_fresh_inclusive_boundary 5 3).1,
   ((is_fresh_inclusive_boundary 5 3).2.2 (by decide)).1,
   ((is_fresh_inclusive_boundary 5 3).2.2 (by decide)).2⟩

/-- C5: a payload that fails to parse as XML is treated as having expired at
the epoch, so `is_fresh` returns false (at any time after the epoch) without
raising; but a payload that parses with an unrecognized `meta.model` shape
makes `valid_until_timestamp_from_file` return the Python literal `False`,
and `is_fresh` then raises `TypeError` when comparing it with a datetime —
it does not return false. -/
theorem is_fresh_malformed_payload :
    (∀ now : Int, is_fresh now Payload.unparseable = .ok (decide (now ≤ 0))) ∧
    is_fresh 1700000000 Payload.unparseable = .ok false ∧
    valid_until_timestamp_from_file Payload.unparseable = .dt 0 ∧
    valid_until_timestamp_from_file (.doc .other) = .pyFalse ∧
    (∀ now : Int, is_fresh now (.doc .other) = .error .typeError) :=
  ⟨fun _ => rfl, by decide, rfl, rfl, fun _ => rfl⟩

/-- C6: when `Connect.read` performs a network fetch (no cache file, or a
stale one) and the HTTP response status is not 200, the call fails with the
fatal provider error and no payload is returned (and nothing is written to
the cache). -/
theorem connect_read_non200 (cacheExists : Bool) (freshRes : Except PyTypeError Bool)
    (status : Nat) (body cachedBody : String)
    (hfetch : cacheExists = false ∨ freshRes = .ok false) (hs : status ≠ 200) :
    connectRead cacheExists freshRes status body cachedBody =
      ⟨.error (.apiError status), true, false⟩ := by
  rcases hfetch with h | h
  · subst h; simp [connectRead, hs]
  · subst h; cases cacheExists <;> simp [connectRead, hs]

theorem connect_read_non200_witness :
    connectRead false (.ok false) 404 "body" "cached" =
      ⟨.error (.apiError 404), true, false⟩ :=
  connect_read_non200 false (.ok false) 404 "body" "cached" (Or.inl rfl) (by decide)

/-- A run of class characters followed by a `'&'` (which is not in the class)
is split off whole by `takeWhile`/`dropWhile`. -/
theorem span_digit_append (g r : List Char) (hg : ∀ c ∈ g, isDigitDot c = true) :
    (g ++ '&' :: r).takeWhile isDigitDot = g ∧
      (g ++ '&' :: r).dropWhile isDigitDot = '&' :: r := by
  induction g with
  | nil => exact ⟨rfl, rfl⟩
  | cons c g ih =>
    have hc : isDigitDot c = true := hg c (by simp)
    have ih' := ih (fun x hx => hg x (by simp [hx]))
    exact ⟨by simp [List.takeWhile_cons, hc, ih'.1],
      by simp [List.dropWhile_cons, hc, ih'.2]⟩

/-- A descriptor whose latitude field starts with `'-'` never matches. -/
theorem coordGroups_neg_lat (cs : List Char) :
    coordGroups ('l' :: 'a' :: 't' :: '=' :: '-' :: cs) = none := rfl

/-- A descriptor with a well-formed latitude field whose longitude field
starts with `'-'` never matches. -/
theorem coordGroups_neg_lon (g1 cs : List Char) (h1 : g1 ≠ [])
    (h2 : ∀ c ∈ g1, isDigitDot c = true) :
    coordGroups ('l' :: 'a' :: 't' :: '=' ::
      (g1 ++ ('&' :: 'l' :: 'o' :: 'n' :: '=' :: '-' :: cs))) = none := by
  have hml : matchLit ['l', 'a', 't', '='] ('l' :: 'a' :: 't' :: '=' ::
      (g1 ++ ('&' :: 'l' :: 'o' :: 'n' :: '=' :: '-' :: cs))) =
      some (g1 ++ ('&' :: 'l' :: 'o' :: 'n' :: '=' :: '-' :: cs)) := rfl
  have hsp := span_digit_append g1 ('l' :: 'o' :: 'n' :: '=' :: '-' :: cs) h2
  have hie : g1.isEmpty = false := by
    cases g1 with
    | nil => exact absurd rfl h1
    | cons a l => rfl
  have hml2 : matchLit ['&', 'l', 'o', 'n', '='] ('&' :: 'l' :: 'o' :: 'n' :: '=' :: '-' :: cs) =
      some ('-' :: cs) := rfl
  simp only [coordGroups, hml, hsp.1, hsp.2, hie, hml2]
  simp [List.takeWhile_cons, isDigitDot]

/-- A descriptor with well-formed latitude and longitude fields whose
altitude field starts with `'-'` never matches. -/
theorem coordGroups_neg_alt (g1 g2 cs : List Char) (h1 : g1 ≠ [])
    (h2 : ∀ c ∈ g1, isDigitDot c = true) (h3 : g2 ≠ [])
    (h4 : ∀ c ∈ g2, isDigitDot c = true) :
    coordGroups ('l' :: 'a' :: 't' :: '=' :: (g1 ++ ('&' :: 'l' :: 'o' :: 'n' :: '=' ::
      (g2 ++ ('&' :: 'a' :: 'l' :: 't' :: 'i' :: 't' :: 'u' :: 'd' :: 'e' :: '=' ::
        '-' :: cs))))) = none := by
  have hml : matchLit ['l', 'a', 't', '='] ('l' :: 'a' :: 't' :: '=' ::
      (g1 ++ ('&' :: 'l' :: 'o' :: 'n' :: '=' ::
        (g2 ++ ('&' :: 'a' :: 'l' :: 't' :: 'i' :: 't' :: 'u' :: 'd' :: 'e' :: '=' ::
          '-' :: cs))))) =
      some (g1 ++ ('&' :: 'l' :: 'o' :: 'n' :: '=' ::
        (g2 ++ ('&' :: 'a' :: 'l' :: 't' :: 'i' :: 't' :: 'u' :: 'd' :: 'e' :: '=' ::
          '-' :: cs)))) := rfl
  have hsp := span_digit_append g1 ('l' :: 'o' :: 'n' :: '=' ::
    (g2 ++ ('&' :: 'a' :: 'l' :: 't' :: 'i' :: 't' :: 'u' :: 'd' :: 'e' :: '=' ::
      '-' :: cs))) h2
  have hie : g1.isEmpty = false := by
    cases g1 with
    | nil => exact absurd rfl h1
    | cons a l => rfl
  have hml2 : matchLit ['&', 'l', 'o', 'n', '='] ('&' :: 'l' :: 'o' :: 'n' :: '=' ::
      (g2 ++ ('&' :: 'a' :: 'l' :: 't' :: 'i' :: 't' :: 'u' :: 'd' :: 'e' :: '=' ::
        '-' :: cs))) =
      some (g2 ++ ('&' :: 'a' :: 'l' :: 't' :: 'i' :: 't' :: 'u' :: 'd' :: 'e' :: '=' ::
        '-' :: cs)) := rfl
  have hsp2 := span_digit_append g2 ('a' :: 'l' :: 't' :: 'i' :: 't' :: 'u' :: 'd' :: 'e' ::
    '=' :: '-' :: cs) h4
  have hie2 : g2.isEmpty = false := by
    cases g2 with
    | nil => exact absurd rfl h3
    | cons a l => rfl
  have hml3 : matchLit ['&', 'a', 'l', 't', 'i', 't', 'u', 'd', 'e', '=']
      ('&' :: 'a' :: 'l' :: 't' :: 'i' :: 't' :: 'u' :: 'd' :: 'e' :: '=' :: '-' :: cs) =
      some ('-' :: cs) := rfl
  simp only [coordGroups, hml, hsp.1, hsp.2, hie, hml2, hsp2.1, hsp2.2, hie2, hml3]
  simp [List.takeWhile_cons, isDigitDot]

/-- C10: the coordinate pattern's character class `[\d.]` carries no sign, so
every matched archive row whose coordinate string encodes a negative
latitude, longitude or altitude — the field after `lat=`, after `&lon=` or
after `&altitude=` starts with `'-'`, the preceding fields being well-formed
class runs — fails the match, and resolution then raises the
malformed-coordinate error even though such a string is an otherwise
well-formed coordinate descriptor (e.g. `lat=-33.9&lon=18.4&altitude=5.0`). -/
theorem coordMatch_rejects_negative :
    (∀ (s : String) (cs : List Char),
      s.data = 'l' :: 'a' :: 't' :: '=' :: '-' :: cs → coordMatch s = none) ∧
    (∀ (s : String) (g1 cs : List Char),
      s.data = 'l' :: 'a' :: 't' :: '=' ::
        (g1 ++ ('&' :: 'l' :: 'o' :: 'n' :: '=' :: '-' :: cs)) →
      g1 ≠ [] → (∀ c ∈ g1, isDigitDot c = true) → coordMatch s = none) ∧
    (∀ (s : String) (g1 g2 cs : List Char),
      s.data = 'l' :: 'a' :: 't' :: '=' :: (g1 ++ ('&' :: 'l' :: 'o' :: 'n' :: '=' ::
        (g2 ++ ('&' :: 'a' :: 'l' :: 't' :: 'i' :: 't' :: 'u' :: 'd' :: 'e' :: '=' ::
          '-' :: cs)))) →
      g1 ≠ [] → (∀ c ∈ g1, isDigitDot c = true) →
      g2 ≠ [] → (∀ c ∈ g2, isDigitDot c = true) → coordMatch s = none) ∧
    (∀ (rows : List (String × String)) (name : String) (row : String × String),
      rows.find? (fun r => r.1 == name) = some row → coordMatch row.2 = none →
      parse_location_csv rows name = .error (.malformedCoordinate row.2)) ∧
    isDigitDot '-' = false := by
  refine ⟨?_, ?_, ?_, ?_, rfl⟩
  · intro s cs hdata
    simp [coordMatch, hdata, coordGroups_neg_lat]
  · intro s g1 cs hdata h1 h2
    simp [coordMatch, hdata, coordGroups_neg_lon g1 cs h1 h2]
  · intro s g1 g2 cs hdata h1 h2 h3 h4
    simp [coordMatch, hdata, coordGroups_neg_alt g1 g2 cs h1 h2 h3 h4]
  · intro rows name row hfind hm
    simp only [parse_location_csv, hfind, hm]

theorem coordMatch_rejects_negative_witness :
    coordMatch "lat=-33.9&lon=18.4&altitude=5.0" = none ∧
    coordMatch "lat=1.5&lon=-2.0&altitude=3" = none ∧
    coordMatch "lat=1&lon=2&altitude=-3" = none ∧
    parse_location_csv [("cape_town", "lat=-33.9&lon=18.4&altitude=5.0")] "cape_town" =
      .error (.malformedCoordinate "lat=-33.9&lon=18.4&altitude=5.0") :=
  ⟨coordMatch_rejects_negative.1 "lat=-33.9&lon=18.4&altitude=5.0"
      "33.9&lon=18.4&altitude=5.0".data rfl,
   coordMatch_rejects_negative.2.1 "lat=1.5&lon=-2.0&altitude=3"
      ['1', '.', '5'] "2.0&altitude=3".data rfl (by decide) (by decide),
   coordMatch_rejects_negative.2.2.1 "lat=1&lon=2&altitude=-3"
      ['1'] ['2'] ['3'] rfl (by decide) (by decide) (by decide) (by decide),
   coordMatch_rejects_negative.2.2.2.1 [("cape_town", "lat=-33.9&lon=18.4&altitude=5.0")]
      "cape_town" ("cape_town", "lat=-33.9&lon=18.4&altitude=5.0") rfl
      (coordMatch_rejects_negative.1 "lat=-33.9&lon=18.4&altitude=5.0"
        "33.9&lon=18.4&altitude=5.0".data rfl)⟩

/-! ## Error classification of the archive scan (C8) -/

theorem parse_location_csv_ok_none_iff (rows : List (String × String)) (name : String) :
    parse_location_csv rows name = .ok none ↔ hasMatch rows name = false := by
  rcases hf : rows.find? (fun row => row.1 == name) with _ | row
  · have hm : hasMatch rows name = false := by
      simp only [hasMatch, List.any_eq_false]
      intro x hx
      exact List.find?_eq_none.mp hf x hx
    simp [parse_location_csv, hf, hm]
  · have hp := List.find?_some hf
    have hm : hasMatch rows name = true := by
      simp only [hasMatch, List.any_eq_true]
      exact ⟨row, List.mem_of_find?_eq_some hf, hp⟩
    rw [hm]
    simp only [parse_location_csv, hf, Bool.true_eq_false, iff_false]
    rcases hcm : coordMatch row.2 with _ | ⟨g1, g2, g3⟩
    · simp [hcm]
    · simp only [hcm]
      rcases hp1 : pyFloat g1 with _ | a
      · simp [hp1]
      · simp only [hp1]
        rcases hp2 : pyFloat g2 with _ | b
        · simp [hp2]
        · simp only [hp2]
          rcases hp3 : pyFloat g3 with _ | c
          · simp [hp3]
          · simp [hp3]

theorem parse_location_csv_ok_some_hasMatch (rows : List (String × String)) (name : String)
    (c : Coord) (h : parse_location_csv rows name = .ok (some c)) :
    hasMatch rows name = true := by
  cases hm : hasMatch rows name with
  | true => rfl
  | false =>
    rw [(parse_location_csv_ok_none_iff rows name).mpr hm] at h
    simp at h

/-- First match wins inside one table file: once some row of `rows₁` matches,
appending further rows never changes the outcome. -/
theorem parse_location_csv_append (rows₁ rows₂ : List (String × String)) (name : String)
    (h : hasMatch rows₁ name = true) :
    parse_location_csv (rows₁ ++ rows₂) name = parse_location_csv rows₁ name := by
  simp only [hasMatch, List.any_eq_true] at h
  obtain ⟨row, hmem, hp⟩ := h
  rcases hf : rows₁.find? (fun r => r.1 == name) with _ | r
  · exact absurd (List.find?_eq_none.mp hf row hmem) (by simpa using hp)
  · simp [parse_location_csv, List.find?_append, hf]

/-- Under the hypothesis that no candidate file raises, the loop of lines
166-171 succeeds and collects exactly one result per candidate file that
contains a matching row. -/
theorem collectResults_ok (entries : List ZipEntry) (name : String)
    (H : ∀ e ∈ entries, ∃ v, parse_location_csv e.rows name = .ok v) :
    ∃ rs, collectResults entries name = .ok rs ∧
      rs.length = (entries.filter (fun e => hasMatch e.rows name)).length := by
  induction entries with
  | nil => exact ⟨[], rfl, rfl⟩
  | cons e rest ih =>
    obtain ⟨v, hv⟩ := H e (by simp)
    obtain ⟨rs, hrs, hlen⟩ := ih (fun x hx => H x (by simp [hx]))
    cases v with
    | none =>
      have hm : hasMatch e.rows name = false := (parse_location_csv_ok_none_iff _ _).mp hv
      exact ⟨rs, by simp [collectResults, hv, hrs], by simp [List.filter_cons, hm, hlen]⟩
    | some c =>
      have hm : hasMatch e.rows name = true := parse_location_csv_ok_some_hasMatch _ _ _ hv
      exact ⟨c :: rs, by simp [collectResults, hv, hrs],
        by simp [List.filter_cons, hm, hlen]⟩

/-- C8: provided no matched row is malformed (that case is the subject of C9),
resolution fails with a not-found error exactly when the normalized location
name matches no row in any candidate country table, including when no
candidate table file exists in the archive; it fails with the
multiple-matches (ambiguous) error exactly when matching rows are found in
more than one candidate table file; and within a single table file the scan
stops at the first matching row. -/
theorem parse_zip_scan_error_classification (zip : List ZipEntry) (zf loc : String)
    (H : ∀ e ∈ candidateFiles zip (normalize loc),
        ∃ v, parse_location_csv e.rows (normalize loc) = .ok v) :
    (isLocationNotFound (parse_zip_scan zip zf loc) = true ↔
      ∀ e ∈ candidateFiles zip (normalize loc),
        hasMatch e.rows (normalize loc) = false) ∧
    (parse_zip_scan zip zf loc = .error (.multipleMatches (normalize loc) zf) ↔
      2 ≤ ((candidateFiles zip (normalize loc)).filter
            (fun e => hasMatch e.rows (normalize loc))).length) ∧
    (∀ (rows₁ rows₂ : List (String × String)) (name : String),
      hasMatch rows₁ name = true →
      parse_location_csv (rows₁ ++ rows₂) name = parse_location_csv rows₁ name) := by
  obtain ⟨rs, hrs, hlen⟩ :=
    collectResults_ok (candidateFiles zip (normalize loc)) (normalize loc) H
  by_cases hemp : (candidateFiles zip (normalize loc)).length = 0
  · have hnil : candidateFiles zip (normalize loc) = [] := List.length_eq_zero.mp hemp
    have hval : parse_zip_scan zip zf loc =
        .error (.csvNotFound (country (normalize loc) ++ ".csv") zf) := by
      rw [parse_zip_scan, parse_zip_core, if_pos hemp]
    refine ⟨?_, ?_, fun r₁ r₂ n hm => parse_location_csv_append r₁ r₂ n hm⟩
    · rw [hval, hnil]
      simp [isLocationNotFound]
    · rw [hval, hnil]
      simp
  · rcases rs with _ | ⟨a, _ | ⟨b, t⟩⟩
    · have hfil : (candidateFiles zip (normalize loc)).filter
          (fun e => hasMatch e.rows (normalize loc)) = [] :=
        List.length_eq_zero.mp hlen.symm
      have hval : parse_zip_scan zip zf loc =
          .error (.locationNotFound (normalize loc) zf) := by
        rw [parse_zip_scan, parse_zip_core, if_neg hemp, hrs]
      refine ⟨?_, ?_, fun r₁ r₂ n hm => parse_location_csv_append r₁ r₂ n hm⟩
      · rw [hval]
        simp only [isLocationNotFound, true_iff]
        intro e he
        have h5 := List.filter_eq_nil_iff.mp hfil e he
        simpa using h5
      · rw [hval, hfil]
        constructor
        · intro hc
          simp at hc
        · intro hc
          simp at hc
    · have hlen1 : ((candidateFiles zip (normalize loc)).filter
          (fun e => hasMatch e.rows (normalize loc))).length = 1 := by
        simpa using hlen.symm
      have hpos : 0 < ((candidateFiles zip (normalize loc)).filter
          (fun e => hasMatch e.rows (normalize loc))).length := by omega
      obtain ⟨e, he⟩ := List.exists_mem_of_length_pos hpos
      have hmem := List.mem_filter.mp he
      have hval : parse_zip_scan zip zf loc = .ok a := by
        rw [parse_zip_scan, parse_zip_core, if_neg hemp, hrs]
      refine ⟨?_, ?_, fun r₁ r₂ n hm => parse_location_csv_append r₁ r₂ n hm⟩
      · refine iff_of_false (by rw [hval]; simp [isLocationNotFound]) (fun hall => ?_)
        have h6 := hall e hmem.1
        rw [hmem.2] at h6
        simp at h6
      · refine iff_of_false (by rw [hval]; simp) (fun hc => ?_)
        omega
    · have h2 : 2 ≤ ((candidateFiles zip (normalize loc)).filter
          (fun e => hasMatch e.rows (normalize loc))).length := by
        rw [← hlen]
        simp
      have hpos : 0 < ((candidateFiles zip (normalize loc)).filter
          (fun e => hasMatch e.rows (normalize loc))).length := by omega
      obtain ⟨e, he⟩ := List.exists_mem_of_length_pos hpos
      have hmem := List.mem_filter.mp he
      have hval : parse_zip_scan zip zf loc =
          .error (.multipleMatches (normalize loc) zf) := by
        rw [parse_zip_scan, parse_zip_core, if_neg hemp, hrs]
      refine ⟨?_, ?_, fun r₁ r₂ n hm => parse_location_csv_append r₁ r₂ n hm⟩
      · refine iff_of_false (by rw [hval]; simp [isLocationNotFound]) (fun hall => ?_)
        have h6 := hall e hmem.1
        rw [hmem.2] at h6
        simp at h6
      · rw [hval]
        exact iff_of_true rfl h2

theorem parse_zip_scan_error_classification_witness :
    isLocationNotFound (parse_zip_scan
      [⟨"serbia.csv", [("serbia/novi_sad", "lat=1&lon=2&altitude=3")]⟩]
      "E.zip" "Serbia/Belgrade") = true := by
  have h := parse_zip_scan_error_classification
      [⟨"serbia.csv", [("serbia/novi_sad", "lat=1&lon=2&altitude=3")]⟩]
      "E.zip" "Serbia/Belgrade" ?_
  · exact h.1.mpr (by decide)
  · intro e he
    simp only [candidateFiles] at he
    have he' := (List.mem_filter.mp he).1
    rw [List.mem_singleton] at he'
    subst he'
    exact ⟨none, by decide⟩

end PyYr
